import Mathlib

/-!
Verification of the areuok-app supervision and check-in core.

This file gives a shallow embedding, in Lean 4, of the streak-calculation
and supervision-ledger logic of the `src-tauri` Rust crate:

* `models.rs` — the data model (`SigninData`, `DeviceConfig`,
  `SupervisionRequest`, `SupervisionRelationship`, statuses, email config);
* `commands.rs` — the command handlers (`calculate_signin_data`,
  `should_continue_streak`, `send_signin_notification`,
  `accept_supervision_request`, `reject_supervision_request`,
  `cancel_supervision_request`, `send_supervision_request`,
  `remove_supervision_relationship`);
* `lib.rs` — the older parallel implementation of the same commands
  (in particular its inline `signin` branch logic, embedded as
  `signin_core_lib` / `signin_lib`).

Conventions of the embedding:

* Storage is out of scope: each command is modelled as a pure function
  from the loaded `DeviceConfig` (or `Option SigninData`) to
  `Except String α`.  `.ok` carries the value returned together with the
  configuration that the Rust code saves; `.error e` means the Rust
  function returned `Err(e)` before reaching the save, so the persisted
  state is unchanged.
* `Uuid::new_v4()` and `Utc::now().to_rfc3339()` results are passed in as
  explicit `fresh_id` / `now` string parameters.
* Rust `i32` streak counters are modelled as `Int` (the claims under
  study never approach the overflow boundary).
* `chrono::NaiveDate` values are modelled as day numbers (`Int`), via the
  standard civil-calendar day-count bijection; `parseDate` models
  `NaiveDate::parse_from_str(s, "%Y-%m-%d")` on the non-negative-year
  date strings this program reads and writes (exactly three dash-separated
  components, all digits, month and day at most two digits, a valid
  proleptic-Gregorian calendar date); a malformed string yields `none`,
  matching the `Err` branch of the Rust parse.
* `Utc::now().date_naive()` — consulted by `should_continue_streak` — is
  passed as the day number `todayNum`; the `today` string produced by
  `get_today_date()` is the `%Y-%m-%d` rendering of the same clock value,
  so the two are linked by `parseDate today = some todayNum` wherever a
  theorem needs the link.
-/

/-- `models.rs` `SupervisionRequestStatus`. -/
inductive SupervisionRequestStatus where
  | Pending
  | Accepted
  | Rejected
  | Cancelled
deriving DecidableEq, Repr

/-- `models.rs` `DeviceMode`. -/
inductive DeviceMode where
  | Signin
  | Supervisor
deriving DecidableEq, Repr

/-- `models.rs` `SigninData`. -/
structure SigninData where
  name : String
  last_signin_date : String
  streak : Int
  signin_history : List String
deriving DecidableEq, Repr

/-- `models.rs` `DeviceInfo`. -/
structure DeviceInfo where
  device_id : String
  device_name : String
  imei : Option String
  mode : DeviceMode
  created_at : String
deriving DecidableEq, Repr

/-- `models.rs` `SupervisionRequest`. -/
structure SupervisionRequest where
  request_id : String
  supervisor_device_id : String
  supervisor_device_name : String
  target_device_id : String
  status : SupervisionRequestStatus
  created_at : String
deriving DecidableEq, Repr

/-- `models.rs` `SupervisionRelationship`. -/
structure SupervisionRelationship where
  relationship_id : String
  supervisor_device_id : String
  supervisor_device_name : String
  supervised_device_id : String
  supervised_device_name : String
  established_at : String
  last_sync_at : String
deriving DecidableEq, Repr

/-- `models.rs` `DeviceConfig`. -/
structure DeviceConfig where
  device : DeviceInfo
  supervision_requests : List SupervisionRequest
  supervision_relationships : List SupervisionRelationship
deriving DecidableEq, Repr

/-- `models.rs` `Quote`. -/
structure Quote where
  text : String
  author : String
deriving DecidableEq, Repr

/-- `models.rs` `EmailConfig`. -/
structure EmailConfig where
  enabled : Bool
  to_email : String
  smtp_server : String
  smtp_port : Nat
  smtp_username : String
  smtp_password : String
  from_email : String
deriving DecidableEq, Repr

/-! ## Date model: `chrono::NaiveDate` as a day number -/

/-- Leap-year test of the proleptic Gregorian calendar (as used by
`chrono::NaiveDate`). -/
def isLeapYear (y : Int) : Bool :=
  y % 4 == 0 && (y % 100 != 0 || y % 400 == 0)

/-- Number of days in month `m` of year `y` (valid for `1 ≤ m ≤ 12`). -/
def daysInMonth (y : Int) (m : Nat) : Nat :=
  if m == 2 then (if isLeapYear y then 29 else 28)
  else if m == 4 || m == 6 || m == 9 || m == 11 then 30
  else 31

/-- Civil-calendar day count: the standard bijection from valid
`(year, month, day)` triples to integers, with consecutive calendar days
mapped to consecutive integers (days-from-civil). -/
def daysFromCivil (y : Int) (m : Nat) (d : Nat) : Int :=
  let yAdj : Int := if m ≤ 2 then y - 1 else y
  let era : Int := yAdj.fdiv 400
  let yoe : Int := yAdj - era * 400
  let mp : Int := if m > 2 then (m : Int) - 3 else (m : Int) + 9
  let doy : Int := (153 * mp + 2).fdiv 5 + (d : Int) - 1
  let doe : Int := yoe * 365 + yoe.fdiv 4 - yoe.fdiv 100 + doy
  era * 146097 + doe - 719468

/-- Parse a list of characters as an all-digit decimal numeral;
`none` if the list is empty or holds a non-digit. -/
def parseDigits : List Char → Option Nat
  | [] => none
  | [c] => if c.isDigit then some (c.toNat - 48) else none
  | c :: cs =>
    if c.isDigit then
      match parseDigits cs with
      | some n => some ((c.toNat - 48) * 10 ^ cs.length + n)
      | none => none
    else none

/-- Split a character list at every dash, like `String.splitOn "-"`
(written in structural recursion so that concrete inputs evaluate). -/
def splitOnDash : List Char → List (List Char)
  | [] => [[]]
  | c :: cs =>
    if c = '-' then [] :: splitOnDash cs
    else
      match splitOnDash cs with
      | [] => [[c]]
      | p :: ps => (c :: p) :: ps

/-- Model of `NaiveDate::parse_from_str(s, "%Y-%m-%d")` on the date strings
this program handles (non-negative year of at most four digits, month and
day of at most two digits, all components digits only, the whole string
consumed), returning the civil day number of the parsed date.  Any string
outside this shape is unparsable and yields `none`, matching the `Err`
branch of the Rust call. -/
def parseDate (s : String) : Option Int :=
  match splitOnDash s.toList with
  | [ys, ms, ds] =>
    match parseDigits ys, parseDigits ms, parseDigits ds with
    | some y, some m, some d =>
      if ys.length ≤ 4 && ms.length ≤ 2 && ds.length ≤ 2
          && 1 ≤ m && m ≤ 12 && 1 ≤ d && d ≤ daysInMonth y m then
        some (daysFromCivil y m d)
      else none
    | _, _, _ => none
  | _ => none

/-! ## StreakCalculator -/

/-- `commands.rs` `should_continue_streak` (the `lib.rs` copy at lines
235–244 is logically identical): `true` iff there is a previous record
whose `last_signin_date` parses as a date and that date is exactly
yesterday relative to the clock.  `todayNum` stands for
`Utc::now().date_naive()`; `last_date == yesterday` on `NaiveDate`s is
equality of day numbers with `todayNum - 1`. -/
def should_continue_streak (data : Option SigninData) (todayNum : Int) : Bool :=
  match data with
  | none => false
  | some saved =>
    match parseDate saved.last_signin_date with
    | none => false
    | some last_date => last_date == todayNum - 1

/-- `commands.rs` `calculate_signin_data`: the pure check-in computation.
The Rust `match` arms, in order: same-day no-op, streak continuation,
reset/new-record; then `today` is appended to the history if absent.
The Rust function has type `Result<SigninData, String>` but every branch
returns `Ok`; the embedding keeps the `Except` shape. -/
def calculate_signin_data (saved_data : Option SigninData) (name : String)
    (today : String) (todayNum : Int) : Except String SigninData :=
  match saved_data with
  | some data =>
    if data.last_signin_date == today then
      .ok data
    else
      let pair : Int × List String :=
        if should_continue_streak (some data) todayNum then
          (data.streak + 1, data.signin_history)
        else
          (1, [])
      let signin_history :=
        if pair.2.contains today then pair.2 else pair.2 ++ [today]
      .ok { name := name, last_signin_date := today, streak := pair.1,
            signin_history := signin_history }
  | none =>
    let signin_history : List String :=
      if ([] : List String).contains today then [] else [today]
    .ok { name := name, last_signin_date := today, streak := 1,
          signin_history := signin_history }

/-- `lib.rs` `signin`, lines 342–368: the inline check-in branch logic of
the older implementation (everything before the save and the email side
effect).  Note the branch order differs from `calculate_signin_data`:
it tests `should_continue_streak` before the same-day test. -/
def signin_core_lib (saved_data : Option SigninData) (name : String)
    (today : String) (todayNum : Int) : Except String SigninData :=
  match saved_data with
  | some data =>
    if should_continue_streak (some data) todayNum then
      let signin_history :=
        if data.signin_history.contains today then data.signin_history
        else data.signin_history ++ [today]
      .ok { name := name, last_signin_date := today, streak := data.streak + 1,
            signin_history := signin_history }
    else if data.last_signin_date == today then
      .ok data
    else
      let signin_history : List String :=
        if ([] : List String).contains today then [] else [today]
      .ok { name := name, last_signin_date := today, streak := 1,
            signin_history := signin_history }
  | none =>
    let signin_history : List String :=
      if ([] : List String).contains today then [] else [today]
    .ok { name := name, last_signin_date := today, streak := 1,
          signin_history := signin_history }

/-! ## SupervisionLedger operations (`commands.rs`; the `lib.rs` copies
at lines 443–574 have identical decision logic) -/

/-- The in-place status update performed through Rust's
`iter_mut().find(|r| r.request_id == request_id)`: set the status of the
first request whose id matches, leave everything else unchanged (no-op
when no id matches), as in `commands.rs` `update_request_status`. -/
def set_status_first (l : List SupervisionRequest) (request_id : String)
    (status : SupervisionRequestStatus) : List SupervisionRequest :=
  match l with
  | [] => []
  | r :: rs =>
    if r.request_id == request_id then { r with status := status } :: rs
    else r :: set_status_first rs request_id status

/-- `commands.rs` `send_supervision_request`: only a `Supervisor`-mode
device may send; on success a fresh `Pending` request snapshotting the
local device's id and name is appended and the config saved. -/
def send_supervision_request (config : DeviceConfig) (target_device_id : String)
    (fresh_id now : String) : Except String (SupervisionRequest × DeviceConfig) :=
  if config.device.mode ≠ DeviceMode.Supervisor then
    .error "Only supervisor devices can send supervision requests"
  else
    let request : SupervisionRequest :=
      { request_id := fresh_id,
        supervisor_device_id := config.device.device_id,
        supervisor_device_name := config.device.device_name,
        target_device_id := target_device_id,
        status := SupervisionRequestStatus.Pending,
        created_at := now }
    .ok (request,
      { config with
          supervision_requests := config.supervision_requests ++ [request] })

/-- `commands.rs` `cancel_supervision_request`: finds the first request
with the given id — with no check of its current status — and sets it to
`Cancelled`; `Err("Request not found")` if no id matches. -/
def cancel_supervision_request (config : DeviceConfig) (request_id : String) :
    Except String DeviceConfig :=
  match config.supervision_requests.find? (fun r => r.request_id == request_id) with
  | none => .error "Request not found"
  | some _ =>
    .ok { config with
            supervision_requests :=
              set_status_first config.supervision_requests request_id
                SupervisionRequestStatus.Cancelled }

/-- `commands.rs` `find_pending_request`: the first request whose id
matches **and** whose status is `Pending`. -/
def find_pending_request (config : DeviceConfig) (request_id : String) :
    Except String SupervisionRequest :=
  match config.supervision_requests.find?
      (fun r => r.request_id == request_id
        && r.status == SupervisionRequestStatus.Pending) with
  | some r => .ok r
  | none => .error "Request not found or already processed"

/-- `commands.rs` `validate_request_target`. -/
def validate_request_target (config : DeviceConfig)
    (request : SupervisionRequest) : Except String Unit :=
  if request.target_device_id ≠ config.device.device_id then
    .error "This request is not for this device"
  else .ok ()

/-- `commands.rs` `create_relationship_from_request`: supervisor fields
copied from the request, supervised fields from the local device;
`fresh_id` stands for `Uuid::new_v4()`, `now` for `Utc::now()`. -/
def create_relationship_from_request (config : DeviceConfig)
    (request : SupervisionRequest) (fresh_id now : String) :
    SupervisionRelationship :=
  { relationship_id := fresh_id,
    supervisor_device_id := request.supervisor_device_id,
    supervisor_device_name := request.supervisor_device_name,
    supervised_device_id := config.device.device_id,
    supervised_device_name := config.device.device_name,
    established_at := now,
    last_sync_at := now }

/-- `commands.rs` `accept_supervision_request`: find a pending request by
id, validate its target, append the derived relationship, flip the
request's status to `Accepted`, and save; on any error nothing is saved. -/
def accept_supervision_request (config : DeviceConfig) (request_id : String)
    (fresh_id now : String) :
    Except String (SupervisionRelationship × DeviceConfig) :=
  match find_pending_request config request_id with
  | .error e => .error e
  | .ok request =>
    match validate_request_target config request with
    | .error e => .error e
    | .ok _ =>
      let relationship :=
        create_relationship_from_request config request fresh_id now
      let config1 :=
        { config with
            supervision_relationships :=
              config.supervision_relationships ++ [relationship] }
      let config2 :=
        { config1 with
            supervision_requests :=
              set_status_first config1.supervision_requests request_id
                SupervisionRequestStatus.Accepted }
      .ok (relationship, config2)

/-- `commands.rs` `reject_supervision_request`: finds the first request
with the given id — with no check of its current status — validates the
target, then sets the status to `Rejected`. -/
def reject_supervision_request (config : DeviceConfig) (request_id : String) :
    Except String DeviceConfig :=
  match config.supervision_requests.find? (fun r => r.request_id == request_id) with
  | none => .error "Request not found"
  | some request =>
    if request.target_device_id ≠ config.device.device_id then
      .error "This request is not for this device"
    else
      .ok { config with
              supervision_requests :=
                set_status_first config.supervision_requests request_id
                  SupervisionRequestStatus.Rejected }

/-- `commands.rs` `remove_supervision_relationship`: retain all
relationships whose id differs; succeed iff the collection shrank. -/
def remove_supervision_relationship (config : DeviceConfig)
    (relationship_id : String) : Except String DeviceConfig :=
  let initial_len := config.supervision_relationships.length
  let remaining :=
    config.supervision_relationships.filter
      (fun r => r.relationship_id != relationship_id)
  if remaining.length < initial_len then
    .ok { config with supervision_relationships := remaining }
  else
    .error "Relationship not found"

/-! ## Operation sequences over the ledger

On `Err` the Rust command returns before `save_device_config`, so the
persisted configuration is the one that was loaded; `applyOp` therefore
keeps the old configuration on `.error`. -/

/-- One ledger mutation, with the fresh uuid / timestamp inputs made
explicit. -/
inductive LedgerOp where
  | send (target_device_id fresh_id now : String)
  | cancel (request_id : String)
  | accept (request_id fresh_id now : String)
  | reject (request_id : String)

/-- The persisted configuration after one command invocation. -/
def applyOp (config : DeviceConfig) : LedgerOp → DeviceConfig
  | .send t f n =>
    match send_supervision_request config t f n with
    | .ok pc => pc.2
    | .error _ => config
  | .cancel rid =>
    match cancel_supervision_request config rid with
    | .ok c => c
    | .error _ => config
  | .accept rid f n =>
    match accept_supervision_request config rid f n with
    | .ok pc => pc.2
    | .error _ => config
  | .reject rid =>
    match reject_supervision_request config rid with
    | .ok c => c
    | .error _ => config

/-- The persisted configuration after a sequence of command invocations. -/
def applyOps (config : DeviceConfig) (ops : List LedgerOp) : DeviceConfig :=
  ops.foldl applyOp config

/-! ## Helper lemmas: streak calculator -/

/-- Every record produced by `calculate_signin_data` carries `today` as
its `last_signin_date` (in the same-day arm because the previous record
already does). -/
theorem calculate_signin_data_last_date (saved : Option SigninData)
    (name today : String) (n : Int) (d : SigninData)
    (h : calculate_signin_data saved name today n = .ok d) :
    d.last_signin_date = today := by
  cases saved with
  | none =>
    simp only [calculate_signin_data, Except.ok.injEq] at h
    subst h
    rfl
  | some data =>
    simp only [calculate_signin_data] at h
    split at h
    case isTrue hb =>
      simp only [Except.ok.injEq] at h
      subst h
      exact eq_of_beq hb
    case isFalse hb =>
      simp only [Except.ok.injEq] at h
      subst h
      rfl

/-- The continue arm of `calculate_signin_data`: if the stored
`last_signin_date` parses to yesterday and `today` is the rendering of
the clock date `n`, the streak increments and `today` is appended to the
history when absent. -/
theorem calculate_signin_data_continue (data : SigninData)
    (name today : String) (n : Int)
    (hp : parseDate data.last_signin_date = some (n - 1))
    (hw : parseDate today = some n) :
    calculate_signin_data (some data) name today n =
      .ok { name := name, last_signin_date := today, streak := data.streak + 1,
            signin_history :=
              if data.signin_history.contains today then data.signin_history
              else data.signin_history ++ [today] } := by
  have hne : (data.last_signin_date == today) = false := by
    apply beq_eq_false_iff_ne.mpr
    intro he
    rw [he, hw] at hp
    simp only [Option.some.injEq] at hp
    omega
  have hc : should_continue_streak (some data) n = true := by
    simp [should_continue_streak, hp]
  simp [calculate_signin_data, hne, hc]

/-- The reset arm of `calculate_signin_data`: a stored date that is
neither today (as a string) nor parses to yesterday — including one that
does not parse at all — yields a fresh record with streak 1 and history
`[today]`, with no error. -/
theorem calculate_signin_data_reset (data : SigninData)
    (name today : String) (n : Int)
    (hne : data.last_signin_date ≠ today)
    (hy : ∀ k, parseDate data.last_signin_date = some k → k ≠ n - 1) :
    calculate_signin_data (some data) name today n =
      .ok { name := name, last_signin_date := today, streak := 1,
            signin_history := [today] } := by
  have hb : (data.last_signin_date == today) = false :=
    beq_eq_false_iff_ne.mpr hne
  have hc : should_continue_streak (some data) n = false := by
    cases hp : parseDate data.last_signin_date with
    | none => simp [should_continue_streak, hp]
    | some k =>
      simp only [should_continue_streak, hp]
      exact beq_eq_false_iff_ne.mpr (hy k hp)
  simp [calculate_signin_data, hb, hc]

/-- `signin_core_lib` never returns an error: every branch of the
`lib.rs` inline check-in logic is a success. -/
theorem signin_core_lib_isOk (saved : Option SigninData)
    (name today : String) (n : Int) :
    ∃ d, signin_core_lib saved name today n = .ok d := by
  cases saved with
  | none => exact ⟨_, rfl⟩
  | some data =>
    by_cases hc : should_continue_streak (some data) n
    · refine ⟨SigninData.mk name today (data.streak + 1)
        (if data.signin_history.contains today then data.signin_history
          else data.signin_history ++ [today]), ?_⟩
      simp [signin_core_lib, hc]
    · by_cases hb : (data.last_signin_date == today) = true
      · exact ⟨data, by simp [signin_core_lib, hc, hb]⟩
      · refine ⟨SigninData.mk name today 1 [today], ?_⟩
        simp [signin_core_lib, hc, hb]

/-- A contiguous run of daily check-ins through `calculate_signin_data`,
starting from no stored record: check-in `i` (0-based) happens on the day
whose clock value is `start + i` and whose `%Y-%m-%d` rendering is `s i`.
Returns the stored record after `k` check-ins (`none` before the first). -/
def runCheckins (name : String) (s : Nat → String) (start : Int) :
    Nat → Option SigninData
  | 0 => none
  | k + 1 =>
    match calculate_signin_data (runCheckins name s start k) name (s k)
        (start + k) with
    | .ok d => some d
    | .error _ => runCheckins name s start k

/-- C5: a previous record whose `last_signin_date` parses as the day
before today continues the streak (`streak + 1`, `today` appended to the
history if absent); consequently, a contiguous run of `k` consecutive
daily check-ins starting from no record reaches streak `k`. -/
theorem C5_consecutive_streak :
    (∀ (data : SigninData) (name today : String) (n : Int),
      parseDate data.last_signin_date = some (n - 1) →
      parseDate today = some n →
      calculate_signin_data (some data) name today n =
        .ok { name := name, last_signin_date := today,
              streak := data.streak + 1,
              signin_history :=
                if data.signin_history.contains today then data.signin_history
                else data.signin_history ++ [today] })
    ∧
    (∀ (name : String) (s : Nat → String) (start : Int) (N : Nat),
      (∀ i, i < N → parseDate (s i) = some (start + (i : Int))) →
      ∀ k, 0 < k → k ≤ N →
      ∃ d, runCheckins name s start k = some d
        ∧ d.streak = (k : Int)
        ∧ d.last_signin_date = s (k - 1)) := by
  constructor
  · intro data name today n hp hw
    exact calculate_signin_data_continue data name today n hp hw
  · intro name s start N hs k
    induction k with
    | zero => intro h; omega
    | succ k ih =>
      intro _ hkN
      cases Nat.eq_zero_or_pos k with
      | inl hk0 =>
        subst hk0
        refine ⟨SigninData.mk name (s 0) 1 [s 0], ?_, by simp, by simp⟩
        simp [runCheckins, calculate_signin_data]
      | inr hkpos =>
        obtain ⟨d, hd, hstreak, hlast⟩ := ih hkpos (by omega)
        have hparse : parseDate d.last_signin_date =
            some ((start + (k : Int)) - 1) := by
          rw [hlast, hs (k - 1) (by omega)]
          congr 1
          have : ((k - 1 : Nat) : Int) = (k : Int) - 1 := by
            omega
          rw [this]
          ring
        have hw : parseDate (s k) = some (start + (k : Int)) :=
          hs k (by omega)
        refine ⟨SigninData.mk name (s k) (d.streak + 1)
          (if d.signin_history.contains (s k) then d.signin_history
            else d.signin_history ++ [s k]), ?_, ?_, ?_⟩
        · simp only [runCheckins, hd]
          rw [calculate_signin_data_continue d name (s k) (start + (k : Int))
            hparse hw]
        · rw [hstreak]
          push_cast
          ring
        · simp

/-- The three consecutive check-in dates used to witness C5. -/
def c5s : Nat → String :=
  fun i => ["2024-01-01", "2024-01-02", "2024-01-03"].getD i ""

/-- C5 witness: three consecutive daily check-ins starting 2024-01-01
(day number 19723) reach streak 3. -/
theorem C5_consecutive_streak_witness :
    ∃ d, runCheckins "user" c5s 19723 3 = some d
      ∧ d.streak = ((3 : Nat) : Int)
      ∧ d.last_signin_date = c5s (3 - 1) :=
  C5_consecutive_streak.2 "user" c5s 19723 3 (by decide) 3 (by decide) (by decide)

/-- C6: a previous record dated today is returned unchanged (same name,
date, streak and history), and a second check-in on the day of any
check-in returns the first result unchanged. -/
theorem C6_same_day_noop :
    (∀ (data : SigninData) (name today : String) (n : Int),
      data.last_signin_date = today →
      calculate_signin_data (some data) name today n = .ok data)
    ∧
    (∀ (saved : Option SigninData) (name name2 today : String) (n : Int)
      (d : SigninData),
      calculate_signin_data saved name today n = .ok d →
      calculate_signin_data (some d) name2 today n = .ok d) := by
  have key : ∀ (data : SigninData) (name today : String) (n : Int),
      data.last_signin_date = today →
      calculate_signin_data (some data) name today n = .ok data := by
    intro data name today n h
    subst h
    simp [calculate_signin_data]
  refine ⟨key, ?_⟩
  intro saved name name2 today n d h
  exact key d name2 today n (calculate_signin_data_last_date saved name today n d h)

/-- C6 witness: re-checking in on 2024-01-01 returns the stored record
unchanged, and a first check-in followed by a same-day second one yields
the first result. -/
theorem C6_same_day_noop_witness :
    calculate_signin_data
        (some (SigninData.mk "u" "2024-01-01" 2 ["2023-12-31", "2024-01-01"]))
        "u" "2024-01-01" 19723 =
      .ok (SigninData.mk "u" "2024-01-01" 2 ["2023-12-31", "2024-01-01"])
    ∧ calculate_signin_data (some (SigninData.mk "u" "2024-01-05" 1 ["2024-01-05"]))
        "u" "2024-01-05" 19727 =
      .ok (SigninData.mk "u" "2024-01-05" 1 ["2024-01-05"]) :=
  ⟨C6_same_day_noop.1 (SigninData.mk "u" "2024-01-01" 2 ["2023-12-31", "2024-01-01"])
      "u" "2024-01-01" 19723 rfl,
    C6_same_day_noop.2 none "u" "u" "2024-01-05" 19727
      (SigninData.mk "u" "2024-01-05" 1 ["2024-01-05"]) rfl⟩

/-- C7: a previous record whose `last_signin_date` is neither today (as a
string) nor parses to yesterday — gap of two or more days, a date after
today, or an unparsable string — resets to streak 1 with history exactly
`[today]`, without failing. -/
theorem C7_reset_on_gap_or_unparsable :
    ∀ (data : SigninData) (name today : String) (n : Int),
      data.last_signin_date ≠ today →
      (∀ k, parseDate data.last_signin_date = some k → k ≠ n - 1) →
      calculate_signin_data (some data) name today n =
        .ok { name := name, last_signin_date := today, streak := 1,
              signin_history := [today] } := by
  intro data name today n hne hy
  exact calculate_signin_data_reset data name today n hne hy

/-- C7 witness: an unparsable stored date resets to streak 1 and history
`["2024-01-05"]` with a successful result. -/
theorem C7_reset_witness :
    calculate_signin_data (some (SigninData.mk "u" "not a date" 7 ["x"]))
        "u" "2024-01-05" 19727 =
      .ok { name := "u", last_signin_date := "2024-01-05", streak := 1,
            signin_history := ["2024-01-05"] } :=
  C7_reset_on_gap_or_unparsable (SigninData.mk "u" "not a date" 7 ["x"])
    "u" "2024-01-05" 19727 (by decide)
    (fun k hk => absurd hk (by rw [show parseDate "not a date" = none from rfl]; simp))

/-- C9: the inline check-in logic of `lib.rs` `signin` and
`calculate_signin_data` of `commands.rs` compute the same record on
every input, although they test the same-day and continue conditions in
opposite order; the link `parseDate today = some n` states that the
`today` string and the clock date `n` come from the same clock reading. -/
theorem C9_parallel_implementations_agree :
    ∀ (saved : Option SigninData) (name today : String) (n : Int),
      parseDate today = some n →
      signin_core_lib saved name today n =
        calculate_signin_data saved name today n := by
  intro saved name today n hw
  cases saved with
  | none => rfl
  | some data =>
    by_cases hc : should_continue_streak (some data) n
    · have hp : parseDate data.last_signin_date = some (n - 1) := by
        cases hp2 : parseDate data.last_signin_date with
        | none => simp [should_continue_streak, hp2] at hc
        | some k =>
          simp only [should_continue_streak, hp2, beq_iff_eq] at hc
          exact congrArg some hc
      rw [calculate_signin_data_continue data name today n hp hw]
      simp [signin_core_lib, hc]
    · by_cases hb : (data.last_signin_date == today) = true
      · simp [signin_core_lib, calculate_signin_data, hc, hb]
      · simp [signin_core_lib, calculate_signin_data, hc, hb]

/-- C9 witness: both implementations agree on a concrete continue step. -/
theorem C9_agree_witness :
    signin_core_lib (some (SigninData.mk "u" "2024-01-01" 1 ["2024-01-01"]))
        "u" "2024-01-02" 19724 =
      calculate_signin_data (some (SigninData.mk "u" "2024-01-01" 1 ["2024-01-01"]))
        "u" "2024-01-02" 19724 :=
  C9_parallel_implementations_agree
    (some (SigninData.mk "u" "2024-01-01" 1 ["2024-01-01"]))
    "u" "2024-01-02" 19724 (by decide)

/-- C10: when the stored record is dated today, the `name` argument has
no effect — both implementations return the stored record, keeping its
original `name` field, whatever name the caller passes. -/
theorem C10_same_day_ignores_name :
    ∀ (data : SigninData) (name today : String) (n : Int),
      data.last_signin_date = today →
      parseDate today = some n →
      calculate_signin_data (some data) name today n = .ok data
      ∧ signin_core_lib (some data) name today n = .ok data := by
  intro data name today n h hw
  have hc : should_continue_streak (some data) n = false := by
    simp only [should_continue_streak, h, hw]
    exact beq_eq_false_iff_ne.mpr (by omega)
  constructor
  · subst h
    simp [calculate_signin_data]
  · subst h
    simp [signin_core_lib, hc]

/-- C10 witness: re-checking in on 2024-01-02 under the different name
"mallory" returns the record still owned by "alice", in both
implementations. -/
theorem C10_same_day_ignores_name_witness :
    calculate_signin_data
        (some (SigninData.mk "alice" "2024-01-02" 2 ["2024-01-01", "2024-01-02"]))
        "mallory" "2024-01-02" 19724 =
      .ok (SigninData.mk "alice" "2024-01-02" 2 ["2024-01-01", "2024-01-02"])
    ∧ signin_core_lib
        (some (SigninData.mk "alice" "2024-01-02" 2 ["2024-01-01", "2024-01-02"]))
        "mallory" "2024-01-02" 19724 =
      .ok (SigninData.mk "alice" "2024-01-02" 2 ["2024-01-01", "2024-01-02"]) :=
  C10_same_day_ignores_name
    (SigninData.mk "alice" "2024-01-02" 2 ["2024-01-01", "2024-01-02"])
    "mallory" "2024-01-02" 19724 rfl rfl

/-! ## The email side effect

`services.rs` `send_signin_email` (and the identical copy in `lib.rs`,
lines 272–326) performs five fallible external steps after its
enabled/recipient guard: parsing the from and to addresses, building the
message, creating the SMTP relay, and sending.  The environment's answer
to each step is abstracted as an `EmailWorld`; the message content
(name, streak, quote) feeds only the message body and cannot influence
which step fails. -/

/-- Outcome of the five fallible steps of the email pipeline. -/
structure EmailWorld where
  from_parse_ok : Bool
  to_parse_ok : Bool
  build_ok : Bool
  relay_ok : Bool
  send_ok : Bool
deriving DecidableEq, Repr

/-- `services.rs` `send_signin_email` / `lib.rs` `send_signin_email`:
`Ok` immediately when disabled or no recipient is configured; otherwise
the first failing step's error is returned (error texts abbreviate the
Rust `format!` messages, whose dynamic tail carries no decision logic). -/
def send_signin_email (name : String) (streak : Int) (quote : Quote)
    (config : EmailConfig) (w : EmailWorld) : Except String Unit :=
  if !config.enabled || config.to_email.isEmpty then .ok ()
  else if !w.from_parse_ok then .error "Invalid from email"
  else if !w.to_parse_ok then .error "Invalid to email"
  else if !w.build_ok then .error "Failed to build email"
  else if !w.relay_ok then .error "Failed to create SMTP relay"
  else if !w.send_ok then .error "Failed to send email"
  else .ok ()

/-- `commands.rs` `get_fallback_quote`. -/
def get_fallback_quote : Quote :=
  { text := "今天的签到已完成，继续加油！", author := "系统" }

/-- The `unwrap_or_else` over `fetch_hitokoto()`: the fetched quote, or
the fallback on error (identical in `commands.rs` and `lib.rs`). -/
def quote_or_fallback (quoteFetch : Except String Quote) : Quote :=
  match quoteFetch with
  | .ok q => q
  | .error _ => get_fallback_quote

/-- `commands.rs` `send_signin_notification`: returns the error message
it *logs*, if any — a config-load failure, a disabled config, and a send
failure all end in a plain `return`, never in an `Err` visible to the
caller.  `emailConfigLoad` stands for `storage::load_email_config()`,
`quoteFetch` for `fetch_hitokoto().await`. -/
def send_signin_notification (name : String) (streak : Int)
    (emailConfigLoad : Except String EmailConfig)
    (quoteFetch : Except String Quote) (w : EmailWorld) : Option String :=
  match emailConfigLoad with
  | .error _ => none
  | .ok config =>
    if config.enabled then
      match send_signin_email name streak (quote_or_fallback quoteFetch) config w with
      | .ok _ => none
      | .error e => some e
    else none

/-- `commands.rs` `signin` (storage load/save abstracted away as in the
file header): compute the new record, then fire the notification and
*discard* its outcome, returning the record. -/
def signin_cmds (saved_data : Option SigninData) (name today : String)
    (todayNum : Int) (emailConfigLoad : Except String EmailConfig)
    (quoteFetch : Except String Quote) (w : EmailWorld) :
    Except String SigninData :=
  match calculate_signin_data saved_data name today todayNum with
  | .error e => .error e
  | .ok new_data =>
    let _logged := send_signin_notification name new_data.streak
      emailConfigLoad quoteFetch w
    .ok new_data

/-- `lib.rs` `signin`, lines 339–387: compute and save the new record,
then, when the loaded email config is enabled, send the email **and
propagate its failure with `?`** as the command's result. -/
def signin_lib (saved_data : Option SigninData) (name today : String)
    (todayNum : Int) (email_config : EmailConfig)
    (quoteFetch : Except String Quote) (w : EmailWorld) :
    Except String SigninData :=
  match signin_core_lib saved_data name today todayNum with
  | .error e => .error e
  | .ok new_data =>
    if email_config.enabled then
      match send_signin_email name new_data.streak (quote_or_fallback quoteFetch)
          email_config w with
      | .error e => .error e
      | .ok _ => .ok new_data
    else .ok new_data

/-- C3 counterexample: in the `lib.rs` `signin`, an email failure fails
the whole check-in.  With an enabled config whose recipient is set and a
from-address that does not parse, the first check-in returns
`Err("Invalid from email")` — even though the record was already saved —
refuting the claim that an email failure never causes `signin` to return
an error. -/
theorem C3_counterexample :
    signin_lib none "u" "2024-01-01" 19723
      (EmailConfig.mk true "to@example.com" "smtp.example.com" 587 "" "" "not an address")
      (.error "network down")
      (EmailWorld.mk false true true true true)
      = .error "Invalid from email" := by
  rfl

/-- C3 amended: the `commands.rs` `signin` is insensitive to the email
side effect — its result is identical for every email-config load
outcome, quote-fetch outcome and email-pipeline outcome — but the
`lib.rs` `signin` propagates the failure of `send_signin_email` as its
own error whenever the loaded email config is enabled and a recipient is
configured (here shown for a failing from-address parse; the other four
pipeline steps fail the same way). -/
theorem C3_amended_email_best_effort :
    (∀ (saved_data : Option SigninData) (name today : String) (todayNum : Int)
      (ecl ecl2 : Except String EmailConfig) (qf qf2 : Except String Quote)
      (w w2 : EmailWorld),
      signin_cmds saved_data name today todayNum ecl qf w =
        signin_cmds saved_data name today todayNum ecl2 qf2 w2)
    ∧
    (∀ (saved_data : Option SigninData) (name today : String) (todayNum : Int)
      (cfg : EmailConfig) (qf : Except String Quote) (w : EmailWorld),
      cfg.enabled = true →
      cfg.to_email.isEmpty = false →
      w.from_parse_ok = false →
      signin_lib saved_data name today todayNum cfg qf w =
        .error "Invalid from email") := by
  constructor
  · intro saved_data name today todayNum ecl ecl2 qf qf2 w w2
    unfold signin_cmds
    cases calculate_signin_data saved_data name today todayNum <;> rfl
  · intro saved_data name today todayNum cfg qf w hen hto hfrom
    obtain ⟨d, hd⟩ := signin_core_lib_isOk saved_data name today todayNum
    unfold signin_lib
    rw [hd]
    simp [hen, send_signin_email, hto, hfrom]

/-- C3 amended witness: a concrete instance of each half — the
`commands.rs` result is unchanged between a fully failing and a fully
succeeding email environment, and the `lib.rs` result is the email
error. -/
theorem C3_amended_email_best_effort_witness :
    signin_cmds none "u" "2024-01-01" 19723
        (.ok (EmailConfig.mk true "to@example.com" "smtp.example.com" 587 "" "" "bad"))
        (.error "network down") (EmailWorld.mk false false false false false) =
      signin_cmds none "u" "2024-01-01" 19723
        (.error "load failed") (.ok (Quote.mk "q" "a"))
        (EmailWorld.mk true true true true true)
    ∧ signin_lib none "u" "2024-01-02" 19724
        (EmailConfig.mk true "to@example.com" "smtp.example.com" 587 "" "" "bad")
        (.ok (Quote.mk "q" "a")) (EmailWorld.mk false true true true true) =
      .error "Invalid from email" :=
  ⟨C3_amended_email_best_effort.1 none "u" "2024-01-01" 19723
      (.ok (EmailConfig.mk true "to@example.com" "smtp.example.com" 587 "" "" "bad"))
      (.error "load failed") (.error "network down") (.ok (Quote.mk "q" "a"))
      (EmailWorld.mk false false false false false)
      (EmailWorld.mk true true true true true),
    C3_amended_email_best_effort.2 none "u" "2024-01-02" 19724
      (EmailConfig.mk true "to@example.com" "smtp.example.com" 587 "" "" "bad")
      (.ok (Quote.mk "q" "a")) (EmailWorld.mk false true true true true)
      rfl rfl rfl⟩

/-! ## Helper lemmas: ledger lists -/

/-- In a list where exactly one element satisfies `p`, any two members
satisfying `p` coincide. -/
theorem countP_one_unique {α : Type} {p : α → Bool} :
    ∀ {l : List α}, l.countP p = 1 →
      ∀ {r x : α}, r ∈ l → p r = true → x ∈ l → p x = true → x = r := by
  intro l
  induction l with
  | nil => intro _ r x hr; cases hr
  | cons a t ih =>
    intro h r x hr hpr hx hpx
    rw [List.countP_cons] at h
    by_cases hpa : p a = true
    · have h0 : t.countP p = 0 := by rw [if_pos hpa] at h; omega
      have hall : ∀ y ∈ t, ¬ p y = true := List.countP_eq_zero.mp h0
      have hra : r = a := by
        cases hr with
        | head => rfl
        | tail _ hr2 => exact absurd hpr (hall r hr2)
      have hxa : x = a := by
        cases hx with
        | head => rfl
        | tail _ hx2 => exact absurd hpx (hall x hx2)
      rw [hxa, hra]
    · have h1 : t.countP p = 1 := by rw [if_neg hpa] at h; omega
      have hrt : r ∈ t := by
        cases hr with
        | head => exact absurd hpr hpa
        | tail _ hr2 => exact hr2
      have hxt : x ∈ t := by
        cases hx with
        | head => exact absurd hpx hpa
        | tail _ hx2 => exact hx2
      exact ih h1 hrt hpr hxt hpx

/-- In a list where exactly one element satisfies `p`, `find? p` returns
the member satisfying `p`. -/
theorem find_first_of_countP_one {α : Type} {p : α → Bool} :
    ∀ {l : List α}, l.countP p = 1 →
      ∀ {r : α}, r ∈ l → p r = true → l.find? p = some r := by
  intro l
  induction l with
  | nil => intro _ r hr; cases hr
  | cons a t ih =>
    intro h r hr hpr
    rw [List.countP_cons] at h
    by_cases hpa : p a = true
    · have h0 : t.countP p = 0 := by rw [if_pos hpa] at h; omega
      have hall : ∀ y ∈ t, ¬ p y = true := List.countP_eq_zero.mp h0
      have hra : r = a := by
        cases hr with
        | head => rfl
        | tail _ hr2 => exact absurd hpr (hall r hr2)
      rw [List.find?_cons_of_pos _ hpa, hra]
    · have h1 : t.countP p = 1 := by rw [if_neg hpa] at h; omega
      have hrt : r ∈ t := by
        cases hr with
        | head => exact absurd hpr hpa
        | tail _ hr2 => exact hr2
      rw [List.find?_cons_of_neg _ (by simpa using hpa)]
      exact ih h1 hrt hpr

/-- `set_status_first` preserves the length of the request list. -/
theorem set_status_first_length (l : List SupervisionRequest)
    (rid : String) (st : SupervisionRequestStatus) :
    (set_status_first l rid st).length = l.length := by
  induction l with
  | nil => rfl
  | cons a t ih =>
    unfold set_status_first
    by_cases hb : (a.request_id == rid) = true
    · simp [hb]
    · simp [hb, ih]

/-- `set_status_first` keeps every position's request id, and either
keeps its status or replaces it with the new status. -/
theorem set_status_first_getElem :
    ∀ (l : List SupervisionRequest) (rid : String)
      (st : SupervisionRequestStatus) (k : Nat) (r : SupervisionRequest),
      l[k]? = some r →
      ∃ r2, (set_status_first l rid st)[k]? = some r2
        ∧ r2.request_id = r.request_id
        ∧ (r2.status = r.status ∨ r2.status = st) := by
  intro l
  induction l with
  | nil => intro rid st k r h; simp at h
  | cons a t ih =>
    intro rid st k r h
    by_cases hb : (a.request_id == rid) = true
    · rw [show set_status_first (a :: t) rid st = { a with status := st } :: t from by
        simp [set_status_first, hb]]
      cases k with
      | zero =>
        have ha : a = r := by simpa using h
        subst ha
        exact ⟨{ a with status := st }, by simp, rfl, Or.inr rfl⟩
      | succ k2 =>
        simp only [List.getElem?_cons_succ] at h ⊢
        exact ⟨r, h, rfl, Or.inl rfl⟩
    · rw [show set_status_first (a :: t) rid st = a :: set_status_first t rid st from by
        simp [set_status_first, hb]]
      cases k with
      | zero =>
        have ha : a = r := by simpa using h
        subst ha
        exact ⟨a, by simp, rfl, Or.inl rfl⟩
      | succ k2 =>
        simp only [List.getElem?_cons_succ] at h ⊢
        exact ih rid st k2 r h

/-- Under unique request ids, after `set_status_first l rid st` every
element carrying id `rid` has status `st`, provided some element of `l`
carried that id. -/
theorem set_status_first_all_id :
    ∀ (l : List SupervisionRequest) (rid : String)
      (st : SupervisionRequestStatus),
      (l.map (fun r => r.request_id)).Nodup →
      (∃ y ∈ l, y.request_id = rid) →
      ∀ x ∈ set_status_first l rid st, x.request_id = rid → x.status = st := by
  intro l
  induction l with
  | nil => intro rid st _ hex; simp at hex
  | cons a t ih =>
    intro rid st hnd hex x hx hxid
    rw [List.map_cons, List.nodup_cons] at hnd
    by_cases hb : (a.request_id == rid) = true
    · rw [show set_status_first (a :: t) rid st =
          { a with status := st } :: t from by simp [set_status_first, hb]] at hx
      cases hx with
      | head => rfl
      | tail _ hx2 =>
        exfalso
        apply hnd.1
        rw [eq_of_beq hb, ← hxid]
        exact List.mem_map_of_mem (fun r => r.request_id) hx2
    · rw [show set_status_first (a :: t) rid st =
          a :: set_status_first t rid st from by simp [set_status_first, hb]] at hx
      have hane : a.request_id ≠ rid := by simpa using hb
      cases hx with
      | head => exact absurd hxid hane
      | tail _ hx2 =>
        have hex2 : ∃ y ∈ t, y.request_id = rid := by
          obtain ⟨y, hy, hyid⟩ := hex
          cases hy with
          | head => exact absurd hyid hane
          | tail _ hy2 => exact ⟨y, hy2, hyid⟩
        exact ih rid st hnd.2 hex2 x hx2 hxid

/-- Case analysis of `accept_supervision_request`: it either fails with
one of its two error messages, or succeeds on the first pending request
with the given id, appending the derived relationship and setting the
first id-matching request to `Accepted`. -/
theorem accept_inversion (config : DeviceConfig) (rid fid now : String) :
    accept_supervision_request config rid fid now =
        .error "Request not found or already processed"
    ∨ accept_supervision_request config rid fid now =
        .error "This request is not for this device"
    ∨ ∃ req, config.supervision_requests.find?
          (fun r => r.request_id == rid
            && r.status == SupervisionRequestStatus.Pending) = some req
        ∧ req.target_device_id = config.device.device_id
        ∧ accept_supervision_request config rid fid now =
            .ok (create_relationship_from_request config req fid now,
              { config with
                  supervision_relationships :=
                    config.supervision_relationships
                      ++ [create_relationship_from_request config req fid now],
                  supervision_requests :=
                    set_status_first config.supervision_requests rid
                      SupervisionRequestStatus.Accepted }) := by
  cases hf : config.supervision_requests.find?
      (fun r => r.request_id == rid
        && r.status == SupervisionRequestStatus.Pending) with
  | none =>
    left
    unfold accept_supervision_request find_pending_request
    rw [hf]
  | some req =>
    by_cases ht : req.target_device_id = config.device.device_id
    · right; right
      refine ⟨req, rfl, ht, ?_⟩
      unfold accept_supervision_request find_pending_request
        validate_request_target
      rw [hf]
      simp [ht]
    · right; left
      unfold accept_supervision_request find_pending_request
        validate_request_target
      rw [hf]
      simp [ht]

/-- The length of the relationship list after filtering out a given id
equals the original length minus the number of matches. -/
theorem filter_ne_id_length (l : List SupervisionRelationship) (rid : String) :
    (l.filter (fun r => r.relationship_id != rid)).length
      = l.length - l.countP (fun r => r.relationship_id == rid) := by
  induction l with
  | nil => rfl
  | cons a t ih =>
    have hle := List.countP_le_length
      (fun r : SupervisionRelationship => r.relationship_id == rid) (l := t)
    by_cases hb : (a.relationship_id == rid) = true
    · have hfb : (a.relationship_id != rid) = false := by simp [bne, hb]
      rw [List.filter_cons, List.countP_cons, hfb, if_neg (by simp),
        if_pos hb, ih, List.length_cons]
      omega
    · have hfb : (a.relationship_id != rid) = true := by
        simp [bne]
        simpa using hb
      rw [List.filter_cons, List.countP_cons, hfb, if_pos rfl,
        if_neg hb, List.length_cons, List.length_cons, ih]
      omega

/-- C8: removing a relationship id with no match fails with
`"Relationship not found"` and (the error path saves nothing) leaves the
persisted collection unchanged; removing a present id — unique per the
data model, encoded as a match count of one — succeeds, the result is
exactly the original collection with the id's matches filtered out, it
is shorter by exactly one, and every relationship with a different id is
kept. -/
theorem C8_remove_relationship :
    ∀ (config : DeviceConfig) (rid : String),
      (config.supervision_relationships.countP
          (fun r => r.relationship_id == rid) = 0 →
        remove_supervision_relationship config rid =
          .error "Relationship not found")
      ∧
      (config.supervision_relationships.countP
          (fun r => r.relationship_id == rid) = 1 →
        remove_supervision_relationship config rid =
          .ok { config with
                  supervision_relationships :=
                    config.supervision_relationships.filter
                      (fun r => r.relationship_id != rid) }
        ∧ (config.supervision_relationships.filter
              (fun r => r.relationship_id != rid)).length
            = config.supervision_relationships.length - 1
        ∧ ∀ x ∈ config.supervision_relationships,
            x.relationship_id ≠ rid →
            x ∈ config.supervision_relationships.filter
              (fun r => r.relationship_id != rid)) := by
  intro config rid
  have hlen := filter_ne_id_length config.supervision_relationships rid
  constructor
  · intro h0
    have hnot : ¬ (config.supervision_relationships.filter
        (fun r => r.relationship_id != rid)).length
          < config.supervision_relationships.length := by
      rw [hlen, h0]
      omega
    unfold remove_supervision_relationship
    rw [if_neg hnot]
  · intro h1
    have hpos : 0 < config.supervision_relationships.length := by
      have := List.countP_le_length
        (fun r : SupervisionRelationship => r.relationship_id == rid)
        (l := config.supervision_relationships)
      omega
    have hcond : (config.supervision_relationships.filter
        (fun r => r.relationship_id != rid)).length
          < config.supervision_relationships.length := by
      rw [hlen, h1]
      omega
    refine ⟨?_, ?_, ?_⟩
    · unfold remove_supervision_relationship
      rw [if_pos hcond]
    · rw [hlen, h1]
    · intro x hx hne
      rw [List.mem_filter]
      refine ⟨hx, ?_⟩
      simp [bne]
      simpa using hne

/-- The relationship and configuration used to witness C8. -/
def c8Rel : SupervisionRelationship :=
  { relationship_id := "rel-1", supervisor_device_id := "dev-A",
    supervisor_device_name := "A", supervised_device_id := "dev-B",
    supervised_device_name := "B", established_at := "t1",
    last_sync_at := "t1" }

/-- The configuration used to witness C8. -/
def c8Config : DeviceConfig :=
  { device :=
      { device_id := "dev-B", device_name := "B", imei := none,
        mode := DeviceMode.Signin, created_at := "t0" },
    supervision_requests := [],
    supervision_relationships := [c8Rel] }

/-- C8 witness: removing the absent id `"nope"` fails; removing the
present unique id `"rel-1"` succeeds and shrinks the collection from one
element to zero. -/
theorem C8_remove_relationship_witness :
    remove_supervision_relationship c8Config "nope" =
      .error "Relationship not found"
    ∧ remove_supervision_relationship c8Config "rel-1" =
        .ok { c8Config with
                supervision_relationships :=
                  c8Config.supervision_relationships.filter
                    (fun r => r.relationship_id != "rel-1") }
    ∧ (c8Config.supervision_relationships.filter
          (fun r => r.relationship_id != "rel-1")).length
        = c8Config.supervision_relationships.length - 1 :=
  ⟨(C8_remove_relationship c8Config "nope").1 rfl,
    ((C8_remove_relationship c8Config "rel-1").2 rfl).1,
    ((C8_remove_relationship c8Config "rel-1").2 rfl).2.1⟩

/-- The terminal-status request used for C1. -/
def c1Req : SupervisionRequest :=
  { request_id := "req-1", supervisor_device_id := "dev-A",
    supervisor_device_name := "Device A", target_device_id := "dev-B",
    status := SupervisionRequestStatus.Accepted, created_at := "t0" }

/-- The stored configuration used for C1: the local device is the
request's target and the request is already `Accepted` (terminal). -/
def c1Config : DeviceConfig :=
  { device :=
      { device_id := "dev-B", device_name := "Device B", imei := none,
        mode := DeviceMode.Signin, created_at := "t0" },
    supervision_requests := [c1Req],
    supervision_relationships := [] }

/-- C1 counterexample: on a request whose status is already terminal
(`Accepted`) and whose target is this device,
`reject_supervision_request` does **not** fail — it succeeds and
overwrites the terminal status with `Rejected`, contradicting the
claimed idempotent failure. -/
theorem C1_counterexample :
    c1Req.status = SupervisionRequestStatus.Accepted
    ∧ reject_supervision_request c1Config "req-1" =
        .ok { c1Config with
                supervision_requests :=
                  [{ c1Req with status := SupervisionRequestStatus.Rejected }] } :=
  ⟨rfl, rfl⟩

/-- C1 amended: against a stored request with a terminal status (ids
unique, encoded as an id-match count of one), `accept_supervision_request`
always fails with `"Request not found or already processed"` (saving
nothing); `reject_supervision_request`, however, fails only when the
request's target is another device — when the target is this device it
succeeds and overwrites the terminal status with `Rejected`. -/
theorem C1_amended_terminal_requests :
    ∀ (config : DeviceConfig) (r : SupervisionRequest) (fid now : String),
      r ∈ config.supervision_requests →
      config.supervision_requests.countP
        (fun x => x.request_id == r.request_id) = 1 →
      r.status ≠ SupervisionRequestStatus.Pending →
      accept_supervision_request config r.request_id fid now =
        .error "Request not found or already processed"
      ∧ reject_supervision_request config r.request_id =
          (if r.target_device_id = config.device.device_id then
            .ok { config with
                    supervision_requests :=
                      set_status_first config.supervision_requests r.request_id
                        SupervisionRequestStatus.Rejected }
          else .error "This request is not for this device") := by
  intro config r fid now hmem hcount hterm
  have hfind_id : config.supervision_requests.find?
      (fun x => x.request_id == r.request_id) = some r :=
    find_first_of_countP_one hcount hmem (by simp)
  have hfind_pending : config.supervision_requests.find?
      (fun x => x.request_id == r.request_id
        && x.status == SupervisionRequestStatus.Pending) = none := by
    rw [List.find?_eq_none]
    intro x hx hpx
    rw [Bool.and_eq_true] at hpx
    have hxr : x = r := countP_one_unique hcount hmem (by simp) hx hpx.1
    subst hxr
    exact hterm (by simpa using hpx.2)
  constructor
  · unfold accept_supervision_request find_pending_request
    rw [hfind_pending]
  · unfold reject_supervision_request
    rw [hfind_id]
    by_cases ht : r.target_device_id = config.device.device_id
    · rw [if_pos ht]
      simp [ht]
    · rw [if_neg ht]
      simp [ht]

/-- C1 amended witness: the concrete terminal-request configuration —
accept fails with the not-found error, and reject (target = this device)
succeeds with the overwritten status. -/
theorem C1_amended_terminal_requests_witness :
    accept_supervision_request c1Config c1Req.request_id "fid" "now" =
      .error "Request not found or already processed"
    ∧ reject_supervision_request c1Config c1Req.request_id =
        (if c1Req.target_device_id = c1Config.device.device_id then
          .ok { c1Config with
                  supervision_requests :=
                    set_status_first c1Config.supervision_requests
                      c1Req.request_id SupervisionRequestStatus.Rejected }
        else .error "This request is not for this device") :=
  C1_amended_terminal_requests c1Config c1Req "fid" "now"
    (by simp [c1Config]) rfl (by simp [c1Req])

/-- C2: under the data model's unique request ids, a successful
`accept_supervision_request` appends exactly one relationship — whose
supervisor id/name come from the accepted request and whose supervised
id/name come from the local device — and in the same saved configuration
every request carrying that id is `Accepted`; a failing call returns one
of the two error messages and (the error path saves nothing) changes no
relationship and no request status. -/
theorem C2_accept_pairing :
    ∀ (config : DeviceConfig) (rid fid now : String),
      (config.supervision_requests.map (fun r => r.request_id)).Nodup →
      (∀ (rel : SupervisionRelationship) (config2 : DeviceConfig),
        accept_supervision_request config rid fid now = .ok (rel, config2) →
        ∃ req, req ∈ config.supervision_requests
          ∧ req.request_id = rid
          ∧ req.status = SupervisionRequestStatus.Pending
          ∧ req.target_device_id = config.device.device_id
          ∧ rel = create_relationship_from_request config req fid now
          ∧ rel.supervisor_device_id = req.supervisor_device_id
          ∧ rel.supervisor_device_name = req.supervisor_device_name
          ∧ rel.supervised_device_id = config.device.device_id
          ∧ rel.supervised_device_name = config.device.device_name
          ∧ config2.device = config.device
          ∧ config2.supervision_relationships =
              config.supervision_relationships ++ [rel]
          ∧ config2.supervision_requests =
              set_status_first config.supervision_requests rid
                SupervisionRequestStatus.Accepted
          ∧ ∀ x ∈ config2.supervision_requests,
              x.request_id = rid → x.status = SupervisionRequestStatus.Accepted)
      ∧ (∀ e, accept_supervision_request config rid fid now = .error e →
          e = "Request not found or already processed"
            ∨ e = "This request is not for this device") := by
  intro config rid fid now hnd
  rcases accept_inversion config rid fid now with ha | ha | ⟨req, hf, ht, ha⟩
  · constructor
    · intro rel config2 h
      rw [ha] at h
      cases h
    · intro e h
      rw [ha] at h
      simp only [Except.error.injEq] at h
      exact Or.inl h.symm
  · constructor
    · intro rel config2 h
      rw [ha] at h
      cases h
    · intro e h
      rw [ha] at h
      simp only [Except.error.injEq] at h
      exact Or.inr h.symm
  · have hmem : req ∈ config.supervision_requests :=
      List.mem_of_find?_eq_some hf
    have hprops := List.find?_some hf
    rw [Bool.and_eq_true] at hprops
    have hid : req.request_id = rid := by simpa using hprops.1
    have hpend : req.status = SupervisionRequestStatus.Pending := by
      simpa using hprops.2
    constructor
    · intro rel config2 h
      rw [ha] at h
      simp only [Except.ok.injEq, Prod.mk.injEq] at h
      obtain ⟨hrel, hcfg⟩ := h
      subst hrel
      subst hcfg
      refine ⟨req, hmem, hid, hpend, ht, rfl, rfl, rfl, rfl, rfl, rfl, rfl,
        rfl, ?_⟩
      exact set_status_first_all_id config.supervision_requests rid
        SupervisionRequestStatus.Accepted hnd ⟨req, hmem, hid⟩
    · intro e h
      rw [ha] at h
      cases h

/-- The pending request used to witness C2. -/
def c2Req : SupervisionRequest :=
  { request_id := "req-2", supervisor_device_id := "dev-A",
    supervisor_device_name := "Device A", target_device_id := "dev-B",
    status := SupervisionRequestStatus.Pending, created_at := "t0" }

/-- The configuration used to witness C2. -/
def c2Config : DeviceConfig :=
  { device :=
      { device_id := "dev-B", device_name := "Device B", imei := none,
        mode := DeviceMode.Signin, created_at := "t0" },
    supervision_requests := [c2Req],
    supervision_relationships := [] }

/-- The relationship created in the C2 witness. -/
def c2Rel : SupervisionRelationship :=
  create_relationship_from_request c2Config c2Req "rel-9" "t9"

/-- The configuration saved in the C2 witness. -/
def c2Saved : DeviceConfig :=
  { c2Config with
      supervision_relationships := c2Config.supervision_relationships ++ [c2Rel],
      supervision_requests :=
        set_status_first c2Config.supervision_requests "req-2"
          SupervisionRequestStatus.Accepted }

/-- C2 witness: accepting the concrete pending request targeted at this
device yields the paired relationship and the `Accepted` status in one
saved configuration. -/
theorem C2_accept_pairing_witness :
    ∃ req, req ∈ c2Config.supervision_requests
      ∧ req.request_id = "req-2"
      ∧ req.status = SupervisionRequestStatus.Pending
      ∧ req.target_device_id = c2Config.device.device_id
      ∧ c2Rel = create_relationship_from_request c2Config req "rel-9" "t9"
      ∧ c2Rel.supervisor_device_id = req.supervisor_device_id
      ∧ c2Rel.supervisor_device_name = req.supervisor_device_name
      ∧ c2Rel.supervised_device_id = c2Config.device.device_id
      ∧ c2Rel.supervised_device_name = c2Config.device.device_name
      ∧ c2Saved.device = c2Config.device
      ∧ c2Saved.supervision_relationships =
          c2Config.supervision_relationships ++ [c2Rel]
      ∧ c2Saved.supervision_requests =
          set_status_first c2Config.supervision_requests "req-2"
            SupervisionRequestStatus.Accepted
      ∧ ∀ x ∈ c2Saved.supervision_requests,
          x.request_id = "req-2" →
          x.status = SupervisionRequestStatus.Accepted :=
  (C2_accept_pairing c2Config "req-2" "rel-9" "t9" (by simp [c2Config, c2Req])).1
    c2Rel c2Saved rfl

/-- Single-step preservation: no ledger command moves an existing
request back to `Pending`, and every position keeps its request id. -/
theorem applyOp_no_new_pending :
    ∀ (config : DeviceConfig) (op : LedgerOp) (k : Nat)
      (r : SupervisionRequest),
      config.supervision_requests[k]? = some r →
      r.status ≠ SupervisionRequestStatus.Pending →
      ∃ r2, (applyOp config op).supervision_requests[k]? = some r2
        ∧ r2.request_id = r.request_id
        ∧ r2.status ≠ SupervisionRequestStatus.Pending := by
  intro config op k r hk hst
  have hstep : ∀ (st : SupervisionRequestStatus) (rid : String),
      st ≠ SupervisionRequestStatus.Pending →
      ∃ r2, (set_status_first config.supervision_requests rid st)[k]?
          = some r2
        ∧ r2.request_id = r.request_id
        ∧ r2.status ≠ SupervisionRequestStatus.Pending := by
    intro st rid hstne
    obtain ⟨r2, h1, h2, h3⟩ :=
      set_status_first_getElem config.supervision_requests rid st k r hk
    refine ⟨r2, h1, h2, ?_⟩
    cases h3 with
    | inl h => rw [h]; exact hst
    | inr h => rw [h]; exact hstne
  cases op with
  | send t f n =>
    simp only [applyOp]
    by_cases hm : config.device.mode ≠ DeviceMode.Supervisor
    · have hc : send_supervision_request config t f n =
          .error "Only supervisor devices can send supervision requests" := by
        unfold send_supervision_request
        rw [if_pos hm]
      simp only [hc]
      exact ⟨r, hk, rfl, hst⟩
    · have hc : send_supervision_request config t f n =
          .ok (SupervisionRequest.mk f config.device.device_id
              config.device.device_name t SupervisionRequestStatus.Pending n,
            { config with
                supervision_requests := config.supervision_requests
                  ++ [SupervisionRequest.mk f config.device.device_id
                      config.device.device_name t
                      SupervisionRequestStatus.Pending n] }) := by
        unfold send_supervision_request
        rw [if_neg hm]
      simp only [hc]
      have hlt : k < config.supervision_requests.length :=
        (List.getElem?_eq_some.mp hk).1
      refine ⟨r, ?_, rfl, hst⟩
      rw [List.getElem?_append_left hlt]
      exact hk
  | cancel rid =>
    simp only [applyOp]
    cases hf : config.supervision_requests.find?
        (fun x => x.request_id == rid) with
    | none =>
      have hc : cancel_supervision_request config rid =
          .error "Request not found" := by
        unfold cancel_supervision_request
        rw [hf]
      simp only [hc]
      exact ⟨r, hk, rfl, hst⟩
    | some q =>
      have hc : cancel_supervision_request config rid =
          .ok { config with
                  supervision_requests :=
                    set_status_first config.supervision_requests rid
                      SupervisionRequestStatus.Cancelled } := by
        unfold cancel_supervision_request
        rw [hf]
      simp only [hc]
      exact hstep SupervisionRequestStatus.Cancelled rid (by simp)
  | accept rid f n =>
    simp only [applyOp]
    rcases accept_inversion config rid f n with ha | ha | ⟨req, hf, ht, ha⟩
    · simp only [ha]
      exact ⟨r, hk, rfl, hst⟩
    · simp only [ha]
      exact ⟨r, hk, rfl, hst⟩
    · simp only [ha]
      exact hstep SupervisionRequestStatus.Accepted rid (by simp)
  | reject rid =>
    simp only [applyOp]
    cases hf : config.supervision_requests.find?
        (fun x => x.request_id == rid) with
    | none =>
      have hc : reject_supervision_request config rid =
          .error "Request not found" := by
        unfold reject_supervision_request
        rw [hf]
      simp only [hc]
      exact ⟨r, hk, rfl, hst⟩
    | some q =>
      by_cases ht : q.target_device_id ≠ config.device.device_id
      · have hc : reject_supervision_request config rid =
            .error "This request is not for this device" := by
          unfold reject_supervision_request
          simp only [hf]
          rw [if_pos ht]
        simp only [hc]
        exact ⟨r, hk, rfl, hst⟩
      · have hc : reject_supervision_request config rid =
            .ok { config with
                    supervision_requests :=
                      set_status_first config.supervision_requests rid
                        SupervisionRequestStatus.Rejected } := by
          unfold reject_supervision_request
          simp only [hf]
          rw [if_neg ht]
        simp only [hc]
        exact hstep SupervisionRequestStatus.Rejected rid (by simp)

/-- The supervisor-mode device configuration from which the C4
counterexample run starts (it sends a request targeting itself, so the
same ledger can later accept it). -/
def c4Base : DeviceConfig :=
  { device :=
      { device_id := "dev-A", device_name := "A", imei := none,
        mode := DeviceMode.Supervisor, created_at := "t0" },
    supervision_requests := [],
    supervision_relationships := [] }

/-- C4 counterexample: a reachable run — send, accept — leaves the
single request in the terminal status `Accepted`, yet one further
`cancel` operation overwrites it to `Cancelled`: terminal states are not
absorbing, refuting the monotonicity claim. -/
theorem C4_counterexample :
    (applyOps c4Base [LedgerOp.send "dev-A" "req-9" "t1",
        LedgerOp.accept "req-9" "rel-9" "t2"]).supervision_requests.map
      (fun r => r.status) = [SupervisionRequestStatus.Accepted]
    ∧ (applyOps c4Base [LedgerOp.send "dev-A" "req-9" "t1",
        LedgerOp.accept "req-9" "rel-9" "t2",
        LedgerOp.cancel "req-9"]).supervision_requests.map
      (fun r => r.status) = [SupervisionRequestStatus.Cancelled] :=
  ⟨rfl, rfl⟩

/-- C4 amended: what does hold of the lifecycle — under every sequence
of send/cancel/accept/reject operations, an existing request keeps its
position and id, and once its status is not `Pending` it never returns
to `Pending`; but terminal states are not absorbing, since cancel and
reject can overwrite a terminal status (see the counterexample). -/
theorem C4_amended_no_return_to_pending :
    ∀ (config : DeviceConfig) (ops : List LedgerOp) (k : Nat)
      (r : SupervisionRequest),
      config.supervision_requests[k]? = some r →
      r.status ≠ SupervisionRequestStatus.Pending →
      ∃ r2, (applyOps config ops).supervision_requests[k]? = some r2
        ∧ r2.request_id = r.request_id
        ∧ r2.status ≠ SupervisionRequestStatus.Pending := by
  intro config ops
  induction ops generalizing config with
  | nil =>
    intro k r hk hst
    exact ⟨r, hk, rfl, hst⟩
  | cons op t ih =>
    intro k r hk hst
    obtain ⟨r1, h1, h2, h3⟩ := applyOp_no_new_pending config op k r hk hst
    obtain ⟨r2, g1, g2, g3⟩ := ih (applyOp config op) k r1 h1 h3
    refine ⟨r2, ?_, by rw [g2, h2], g3⟩
    simpa [applyOps] using g1

/-- The `Rejected`-status request used to witness the amended C4. -/
def c4Req : SupervisionRequest :=
  { request_id := "req-4", supervisor_device_id := "dev-A",
    supervisor_device_name := "A", target_device_id := "dev-C",
    status := SupervisionRequestStatus.Rejected, created_at := "t0" }

/-- The configuration used to witness the amended C4. -/
def c4Config : DeviceConfig :=
  { device :=
      { device_id := "dev-C", device_name := "C", imei := none,
        mode := DeviceMode.Signin, created_at := "t0" },
    supervision_requests := [c4Req],
    supervision_relationships := [] }

/-- C4 amended witness: a concrete terminal request keeps its id and
never returns to `Pending` across a cancel-then-reject run. -/
theorem C4_amended_no_return_to_pending_witness :
    ∃ r2, (applyOps c4Config [LedgerOp.cancel "req-4",
        LedgerOp.reject "req-4"]).supervision_requests[0]? = some r2
      ∧ r2.request_id = c4Req.request_id
      ∧ r2.status ≠ SupervisionRequestStatus.Pending :=
  C4_amended_no_return_to_pending c4Config
    [LedgerOp.cancel "req-4", LedgerOp.reject "req-4"] 0 c4Req rfl
    (by simp [c4Req])
